import Mathlib

/-!
Verification of the glog-rs logging engine (`src/lib.rs`, `src/flags.rs`,
`src/macros.rs`) against its natural-language specification.

The embedding below is a shallow model of the dispatch/formatting/file-fan-out
engine: severities with their integer ranks (the `level_integers` bimap),
the flag record, the logger state, file creation at initialization, the
cascading file fan-out of `write_file`, the backtrace trigger, and the
`fatal!` macro.  File handles are modelled by a membership predicate
(`file_writer`), and the I/O performed by one logging call is modelled as the
list of write events it produces, in order, together with a flag telling
whether the call completed without panicking.
-/

namespace Glog

/-- The severity enumeration of `src/lib.rs` (`pub enum Level`), with the
same seven constructors. -/
inductive Level where
  | Verbose
  | Trace
  | Debug
  | Info
  | Warn
  | Error
  | Fatal
deriving DecidableEq, Fintype

/-- Model of the external `log::Level` enumeration (five levels, ordered
`Error < Warn < Info < Debug < Trace` by its derived `Ord`). -/
inductive LogLevel where
  | Trace
  | Debug
  | Info
  | Warn
  | Error
deriving DecidableEq, Fintype

/-- Numeric value of `log::Level` used by its derived ordering
(`Error = 1 < Warn < Info < Debug < Trace = 5`). -/
def logLevelNum : LogLevel → Nat
  | LogLevel.Error => 1
  | LogLevel.Warn => 2
  | LogLevel.Info => 3
  | LogLevel.Debug => 4
  | LogLevel.Trace => 5

/-- `impl From<log::Level> for Level` in `src/lib.rs`. -/
def Level.fromLog : LogLevel → Level
  | LogLevel.Trace => Level.Trace
  | LogLevel.Debug => Level.Debug
  | LogLevel.Info => Level.Info
  | LogLevel.Warn => Level.Warn
  | LogLevel.Error => Level.Error

/-- `Level::as_str` in `src/lib.rs`. -/
def Level.as_str : Level → String
  | Level.Verbose => "Verbose"
  | Level.Trace => "Trace"
  | Level.Debug => "Debug"
  | Level.Info => "Info"
  | Level.Warn => "Warn"
  | Level.Error => "Error"
  | Level.Fatal => "Fatal"

/-- The left-to-right direction of the `level_integers` bimap populated in
`init` (`Verbose ↦ -3`, ..., `Fatal ↦ 3`); `get_by_left(..).unwrap()` is total
because every level is inserted. -/
def level_int : Level → Int
  | Level.Verbose => -3
  | Level.Trace => -2
  | Level.Debug => -1
  | Level.Info => 0
  | Level.Warn => 1
  | Level.Error => 2
  | Level.Fatal => 3

/-- The right-to-left direction of the `level_integers` bimap
(`get_by_right`), which can fail for integers outside `-3..=3`. -/
def level_of_int (i : Int) : Option Level :=
  if i = -3 then some Level.Verbose
  else if i = -2 then some Level.Trace
  else if i = -1 then some Level.Debug
  else if i = 0 then some Level.Info
  else if i = 1 then some Level.Warn
  else if i = 2 then some Level.Error
  else if i = 3 then some Level.Fatal
  else none

/-- The flag record of `src/flags.rs` (`pub struct Flags`), with `OsString`
paths modelled as `String`. -/
structure Flags where
  colorlogtostderr : Bool
  minloglevel : LogLevel
  log_backtrace_at : Option String
  logtostderr : Bool
  alsologtostderr : Bool
  log_dir : String

/-- Ambient process/OS facts that the logger reads at initialization time:
executable basename, hostname, username, the `YYYYMMDD-HHMMSS` timestamp and
pid used in the file-name suffix, and the OS temp directory used by
`Flags::default()`. -/
structure Env where
  exe_name : String
  hostname : String
  username : String
  timestamp : String
  pid : Nat
  temp_dir : String

/-- `Flags::default()` from `src/flags.rs`: `log_dir` is the temp directory
with a trailing separator (collecting `[temp_dir(), ""]` into a `PathBuf`
appends the separator). -/
def default_flags (env : Env) : Flags :=
  { colorlogtostderr := false
    minloglevel := LogLevel.Info
    log_backtrace_at := none
    logtostderr := false
    alsologtostderr := false
    log_dir := env.temp_dir ++ "/" }

/-- The logger structure of `src/lib.rs` (`pub struct Glogger`); the
severity-to-file-handle map `file_writer` is modelled by the predicate
telling which severities currently have an open log file. -/
structure Glogger where
  compatible_verbosity : Bool
  compatible_date : Bool
  flags : Flags
  application_fingerprint : Option String
  file_writer : Level → Bool

/-- Body of `Glogger::match_level`, parameterized by
`compatible_verbosity`: `Debug`/`Trace` collapse to `Info` when compatible
verbosity is on, every other level is returned unchanged. -/
def match_level_impl (cv : Bool) (l : Level) : Level :=
  match l with
  | Level.Debug => if cv then Level.Info else Level.Debug
  | Level.Trace => if cv then Level.Info else Level.Trace
  | x => x

/-- `Glogger::match_level` from `src/lib.rs`. -/
def Glogger.match_level (g : Glogger) (l : Level) : Level :=
  match_level_impl g.compatible_verbosity l

/-- `Glogger::level_as_int` from `src/lib.rs`:
`level_integers.get_by_left(&match_level(level)).unwrap()`. -/
def Glogger.level_as_int (g : Glogger) (l : Level) : Int :=
  level_int (g.match_level l)

/-- The list of severities for which `Glogger::create_log_files` creates a
file, in creation order: `Trace` and `Debug` first when
`compatible_verbosity` is off, then always `Info`, `Warn`, `Error`. -/
def create_level_list (cv : Bool) : List Level :=
  (if cv then [] else [Level.Trace, Level.Debug]) ++
    [Level.Info, Level.Warn, Level.Error]

/-- Membership in the file map after `create_log_files`. -/
def created_files (cv : Bool) (l : Level) : Bool :=
  (create_level_list cv).contains l

/-- The `if_empty` fallback applied to the hostname in `create_log_files`. -/
def host_or_unknown (h : String) : String :=
  if h = "" then "(unknown)" else h

/-- The `if_empty` fallback applied to the username in `create_log_files`. -/
def user_or_invalid (u : String) : String :=
  if u = "" then "invalid-user" else u

/-- Character-wise ASCII upper-casing (`to_uppercase` applied to the level
names, which are ASCII). -/
def to_upper (s : String) : String :=
  String.mk (s.data.map Char.toUpper)

/-- The log-file path built by `Glogger::create_log_files`:
`dir` + `exe.hostname.username.log.` + `SEVERITY` + `.timestamp.pid`
(`OsString::push` concatenates without inserting separators). -/
def log_file_path (env : Env) (dir : String) (l : Level) : String :=
  dir ++ env.exe_name ++ "." ++ host_or_unknown env.hostname ++ "." ++
    user_or_invalid env.username ++ ".log." ++ to_upper l.as_str ++
    "." ++ env.timestamp ++ "." ++ toString env.pid

/-- `Glogger::create_log_files` from `src/lib.rs`: reads `self.flags.log_dir`,
creates one file (with header) per severity of `create_level_list`, and
records the opened handles in `file_writer`.  Returns the updated logger and
the list of created file paths in creation order. -/
def Glogger.create_log_files (env : Env) (g : Glogger) : Glogger × List String :=
  let dir := g.flags.log_dir
  ({ g with file_writer := fun l => created_files g.compatible_verbosity l },
    (create_level_list g.compatible_verbosity).map (fun l => log_file_path env dir l))

/-- The global registration state: the `LOGGER: OnceCell<Glogger>` cell and
the `log` facade's global-logger slot set by `log::set_logger` (which
succeeds at most once per process). -/
structure LogState where
  logger : Option Glogger
  registered : Bool

/-- `pub fn init(flags: Flags)` from `src/lib.rs`.  On the first call the
`get_or_init` closure builds the logger with `Flags::default()`, creates the
log files while `self.flags` is still the default (only afterwards is
`l.flags = flags` assigned), and then registration with `log::set_logger`
happens; any later call leaves the cell untouched and `set_logger` fails.
Returns the new state, the list of file paths created by this call, and the
`Result` of `log::set_logger`. -/
def init (env : Env) (flags : Flags) (st : LogState) :
    LogState × List String × Except Unit Unit :=
  match st.logger with
  | some _ =>
      if st.registered then (st, [], Except.error ())
      else ({ st with registered := true }, [], Except.ok ())
  | none =>
      let l0 : Glogger :=
        { compatible_verbosity := true
          compatible_date := true
          flags := default_flags env
          application_fingerprint := none
          file_writer := fun _ => false }
      let created := if flags.logtostderr then (l0, []) else Glogger.create_log_files env l0
      let l1 : Glogger := { created.1 with flags := flags }
      let st1 : LogState := { st with logger := some l1 }
      if st1.registered then (st1, created.2, Except.error ())
      else ({ st1 with registered := true }, created.2, Except.ok ())

/-- The `Record` structure of `src/lib.rs` (message already rendered). -/
structure Record where
  line : Nat
  msg : String
  file : String
  level : Level

/-- `Glogger::should_log_backtrace` from `src/lib.rs`: true iff a trigger is
configured and `"{file_name}:{line}"` equals it. -/
def Glogger.should_log_backtrace (g : Glogger) (file_name : String) (line : Nat) : Bool :=
  match g.flags.log_backtrace_at with
  | some t => (file_name ++ ":" ++ toString line) == t
  | none => false

/-- The `{:5}` padding applied to the thread id in `build_log_message`. -/
def pad5 (s : String) : String :=
  if s.length < 5 then String.mk (List.replicate (5 - s.length) ' ') ++ s else s

/-- The single-character severity abbreviation rendered by
`build_log_message`: `match_level(level).as_str().chars().next().unwrap()`. -/
def Level.head_str (l : Level) : String :=
  String.mk (l.as_str.toList.take 1)

/-- `Glogger::build_log_message` from `src/lib.rs`, with the formatted
current time passed in as `now` (its year part is governed by
`compatible_date` inside the formatting call, which we treat as opaque)
and the OS thread id as `tid`. -/
def Glogger.build_log_message (g : Glogger) (now : String) (tid : Nat) (r : Record) : String :=
  (g.match_level r.level).head_str ++ now ++ " " ++ pad5 (toString tid) ++ " " ++
    r.file ++ ":" ++ toString r.line ++ "] " ++ r.msg

/-- One write event against a log file performed by `write_file`:
a formatted line, a backtrace append, or the panic caused by an
`unwrap()` on a missing `file_writer`/`level_integers` entry at the given
integer rank. -/
inductive FileEvent where
  | line (lvl : Level) (msg : String)
  | backtrace (lvl : Level)
  | panicMissing (rank : Int)
deriving DecidableEq

/-- One write event of a whole logging call (stderr or file side). -/
inductive Step where
  | stderrLine (msg : String)
  | stderrBacktrace
  | file (e : FileEvent)
deriving DecidableEq

/-- How a logging call ends: normal return, or termination of the calling
thread's normal control flow (a panic, deliberate or not). -/
inductive Outcome where
  | normal
  | terminated
deriving DecidableEq

/-- The inclusive integer range `a..=b` iterated by the fan-out loop of
`write_file`, as the increasing list of its elements. -/
def int_range (a b : Int) : List Int :=
  (List.range (b + 1 - a).toNat).map (fun (n : Nat) => a + (n : Int))

/-- The rank range iterated by `write_file` for an event at severity `rl`:
`level_as_int(Level::from(minloglevel))..=level_as_int(record.level)`. -/
def fan_ranks (g : Glogger) (rl : Level) : List Int :=
  int_range (g.level_as_int (Level.fromLog g.flags.minloglevel)) (g.level_as_int rl)

/-- The fan-out loop of `Glogger::write_file`: for each rank, look the level
up by rank (`get_by_right(..).unwrap()`), then the file handle
(`file_writer.get(level).unwrap()`), and append the formatted line.  A failed
`unwrap` panics, aborting the loop; the Boolean result records whether the
loop ran to completion. -/
def fan_loop (g : Glogger) (m : String) : List Int → List FileEvent × Bool
  | [] => ([], true)
  | i :: rest =>
    match level_of_int i with
    | none => ([FileEvent.panicMissing i], false)
    | some lvl =>
      if g.file_writer lvl then
        let r := fan_loop g m rest
        (FileEvent.line lvl m :: r.1, r.2)
      else ([FileEvent.panicMissing i], false)

/-- The fan-out portion of `Glogger::write_file` for a record. -/
def fan_out_writes (g : Glogger) (now : String) (tid : Nat) (r : Record) :
    List FileEvent × Bool :=
  fan_loop g (g.build_log_message now tid r) (fan_ranks g r.level)

/-- `Glogger::write_file` from `src/lib.rs`: the cascading fan-out loop,
followed (only if the loop did not panic) by the backtrace append to the file
of `match_level(Level::from(minloglevel))` when the trigger matches. -/
def Glogger.write_file (g : Glogger) (now : String) (tid : Nat) (r : Record) :
    List FileEvent × Bool :=
  if (fan_out_writes g now tid r).2 then
    if g.should_log_backtrace r.file r.line then
      if g.file_writer (g.match_level (Level.fromLog g.flags.minloglevel)) then
        ((fan_out_writes g now tid r).1 ++
          [FileEvent.backtrace (g.match_level (Level.fromLog g.flags.minloglevel))], true)
      else
        ((fan_out_writes g now tid r).1 ++
          [FileEvent.panicMissing
            (level_int (g.match_level (Level.fromLog g.flags.minloglevel)))], false)
    else ((fan_out_writes g now tid r).1, true)
  else ((fan_out_writes g now tid r).1, false)

/-- `Glogger::write_stderr` from `src/lib.rs`: the formatted line, then the
backtrace when the trigger matches (color handling has no effect on the
emitted text). -/
def write_stderr (g : Glogger) (now : String) (tid : Nat) (r : Record) : List Step :=
  [Step.stderrLine (g.build_log_message now tid r)] ++
    (if g.should_log_backtrace r.file r.line then [Step.stderrBacktrace] else [])

/-- `Glogger::log_internal` from `src/lib.rs`: stderr when `logtostderr` or
`alsologtostderr`, files when not `logtostderr` (`write_sinks` is empty).
The Boolean result records whether the call completed without panicking. -/
def log_internal (g : Glogger) (now : String) (tid : Nat) (r : Record) :
    List Step × Bool :=
  let s1 := if g.flags.logtostderr || g.flags.alsologtostderr
            then write_stderr g now tid r else []
  if g.flags.logtostderr then (s1, true)
  else (s1 ++ (g.write_file now tid r).1.map Step.file, (g.write_file now tid r).2)

/-- `<Glogger as Log>::enabled` from `src/lib.rs`:
`self.flags.minloglevel >= metadata.level()` in the `log::Level` order. -/
def Glogger.enabled (g : Glogger) (l : LogLevel) : Bool :=
  decide (logLevelNum l ≤ logLevelNum g.flags.minloglevel)

/-- `<Glogger as Log>::log` from `src/lib.rs`: return immediately when the
event's severity is not enabled, otherwise build the record (file name
reduced to its basename by the caller of this model) and run `log_internal`.
A panic inside `log_internal` terminates the calling thread. -/
def log_call (g : Glogger) (now : String) (tid : Nat) (ll : LogLevel)
    (file_name : String) (line : Nat) (msg : String) : List Step × Outcome :=
  if g.enabled ll = false then ([], Outcome.normal)
  else
    let r : Record := { line := line, msg := msg, file := file_name, level := Level.fromLog ll }
    ((log_internal g now tid r).1,
      if (log_internal g now tid r).2 then Outcome.normal else Outcome.terminated)

/-- The `fatal!` macro from `src/macros.rs`: build a `Fatal` record, run
`log_internal`, then `panic!()`.  The calling thread's normal control flow
always ends, either through the macro's own panic or through a panic inside
`log_internal`; the returned trace lists the writes completed before that. -/
def fatal_call (g : Glogger) (now : String) (tid : Nat)
    (file_name : String) (line : Nat) (msg : String) : List Step × Outcome :=
  let r : Record := { line := line, msg := msg, file := file_name, level := Level.Fatal }
  ((log_internal g now tid r).1, Outcome.terminated)

/-- A logger as produced by the initialization path with file output
enabled: arbitrary `compatible_verbosity`/`compatible_date` (the builder
methods `reduced_log_levels`/`with_year` set them), flags, fingerprint, and
the file map filled by `create_log_files`. -/
def mk_logger (cv cd : Bool) (fl : Flags) (fp : Option String) : Glogger :=
  { compatible_verbosity := cv
    compatible_date := cd
    flags := fl
    application_fingerprint := fp
    file_writer := fun l => created_files cv l }

/-- Whether the registered logger has an open file for severity `l`. -/
def logger_has_file (st : LogState) (l : Level) : Bool :=
  match st.logger with
  | some g => g.file_writer l
  | none => false

/-- Whether the rank `i` resolves to a level that has an open file
(both `unwrap`s of the fan-out loop body succeed). -/
def rank_has_writer (g : Glogger) (i : Int) : Bool :=
  match level_of_int i with
  | some l => g.file_writer l
  | none => false

/-! ### Concrete fixtures used by witnesses and counterexamples -/

/-- A concrete environment for witness evaluation. -/
def env0 : Env :=
  { exe_name := "app", hostname := "host", username := "user",
    timestamp := "20260101-000000", pid := 123, temp_dir := "/tmp" }

/-- Flags with minimum severity `Warn` and file output enabled. -/
def flags_warn : Flags :=
  { colorlogtostderr := false, minloglevel := LogLevel.Warn, log_backtrace_at := none,
    logtostderr := false, alsologtostderr := false, log_dir := "/tmp/" }

/-- Flags with a non-default destination directory. -/
def flags_var_log : Flags :=
  { flags_warn with minloglevel := LogLevel.Info, log_dir := "/var/log/" }

/-- Flags with a configured backtrace trigger at `foo.rs:42`. -/
def flags_trigger : Flags :=
  { flags_warn with minloglevel := LogLevel.Info, log_backtrace_at := some "foo.rs:42" }

/-- Flags with a configured backtrace trigger at `foo.ext:42`. -/
def flags_trigger_ext : Flags :=
  { flags_warn with minloglevel := LogLevel.Info, log_backtrace_at := some "foo.ext:42" }

/-- Flags with file output and `alsologtostderr` both enabled. -/
def flags_also : Flags :=
  { flags_warn with alsologtostderr := true }

/-! ### Helper lemmas about the rank range and the fan-out loop -/

theorem mem_int_range (a b i : Int) : i ∈ int_range a b ↔ a ≤ i ∧ i ≤ b := by
  simp only [int_range, List.mem_map, List.mem_range]
  constructor
  · rintro ⟨n, hn, hni⟩
    omega
  · rintro ⟨h1, h2⟩
    refine ⟨(i - a).toNat, ?_, ?_⟩ <;> omega

theorem int_range_snoc (a b : Int) (h : a ≤ b + 1) :
    int_range a (b + 1) = int_range a b ++ [b + 1] := by
  have h1 : (b + 1 + 1 - a).toNat = (b + 1 - a).toNat + 1 := by omega
  rw [int_range, h1, List.range_succ, List.map_append, int_range]
  simp only [List.map_cons, List.map_nil, List.append_cancel_left_eq, List.cons.injEq, and_true]
  omega

theorem level_of_int_level_int : ∀ l : Level, level_of_int (level_int l) = some l := by
  decide

theorem level_of_int_inj (i : Int) (l : Level) (h : level_of_int i = some l) :
    i = level_int l := by
  have hb : i = -3 ∨ i = -2 ∨ i = -1 ∨ i = 0 ∨ i = 1 ∨ i = 2 ∨ i = 3 := by
    by_contra hc
    push_neg at hc
    obtain ⟨n3, n2, n1, z, p1, p2, p3⟩ := hc
    simp [level_of_int, n3, n2, n1, z, p1, p2, p3] at h
  rcases hb with rfl | rfl | rfl | rfl | rfl | rfl | rfl <;>
    (simp [level_of_int] at h; subst h; rfl)

theorem fan_loop_cons_pos (g : Glogger) (m : String) (i : Int) (rest : List Int)
    (l0 : Level) (hl0 : level_of_int i = some l0) (hw0 : g.file_writer l0 = true) :
    fan_loop g m (i :: rest) =
      (FileEvent.line l0 m :: (fan_loop g m rest).1, (fan_loop g m rest).2) := by
  simp [fan_loop, hl0, hw0]

theorem fan_loop_cons_bad (g : Glogger) (m : String) (i : Int) (rest : List Int)
    (hbad : rank_has_writer g i = false) :
    fan_loop g m (i :: rest) = ([FileEvent.panicMissing i], false) := by
  cases hlo : level_of_int i with
  | none => simp [fan_loop, hlo]
  | some l =>
    have hw : g.file_writer l = false := by
      simpa [rank_has_writer, hlo] using hbad
    simp [fan_loop, hlo, hw]

theorem fan_loop_complete (g : Glogger) (m : String) :
    ∀ ranks : List Int,
      (∀ i ∈ ranks, ∃ l, level_of_int i = some l ∧ g.file_writer l = true) →
      (fan_loop g m ranks).2 = true ∧
        ∀ l : Level,
          (FileEvent.line l m ∈ (fan_loop g m ranks).1 ↔ ∃ i ∈ ranks, level_of_int i = some l) := by
  intro ranks
  induction ranks with
  | nil => intro _; simp [fan_loop]
  | cons i rest ih =>
    intro h
    obtain ⟨l0, hl0, hw0⟩ := h i (List.mem_cons_self i rest)
    obtain ⟨hok, hmem⟩ := ih (fun j hj => h j (List.mem_cons_of_mem i hj))
    rw [fan_loop_cons_pos g m i rest l0 hl0 hw0]
    refine ⟨hok, fun l => ?_⟩
    constructor
    · intro hin
      rcases List.mem_cons.mp hin with heq | htail
      · injection heq with h1 h2
        subst h1
        exact ⟨i, List.mem_cons_self i rest, hl0⟩
      · obtain ⟨j, hj, hjl⟩ := (hmem l).mp htail
        exact ⟨j, List.mem_cons_of_mem i hj, hjl⟩
    · rintro ⟨j, hj, hjl⟩
      rcases List.mem_cons.mp hj with rfl | hj'
      · have hll : l0 = l := Option.some.inj (hl0.symm.trans hjl)
        subst hll
        exact List.mem_cons_self _ _
      · exact List.mem_cons_of_mem _ ((hmem l).mpr ⟨j, hj', hjl⟩)

theorem fan_loop_fails (g : Glogger) (m : String) :
    ∀ ranks : List Int,
      (∃ i ∈ ranks, rank_has_writer g i = false) →
      (fan_loop g m ranks).2 = false := by
  intro ranks
  induction ranks with
  | nil => rintro ⟨i, hi, _⟩; exact absurd hi (List.not_mem_nil i)
  | cons i rest ih =>
    rintro ⟨j, hj, hbad⟩
    rcases List.mem_cons.mp hj with rfl | hj'
    · rw [fan_loop_cons_bad g m j rest hbad]
    · cases hlo : level_of_int i with
      | none => simp [fan_loop, hlo]
      | some l =>
        cases hw : g.file_writer l with
        | false => simp [fan_loop, hlo, hw]
        | true =>
          rw [fan_loop_cons_pos g m i rest l hlo hw]
          exact ih ⟨j, hj', hbad⟩

theorem fan_loop_mem_append (g : Glogger) (m : String) :
    ∀ (pre rest : List Int) (l : Level),
      (∀ j ∈ pre, ∃ l', level_of_int j = some l' ∧ g.file_writer l' = true) →
      (∃ i ∈ pre, level_of_int i = some l) →
      FileEvent.line l m ∈ (fan_loop g m (pre ++ rest)).1 := by
  intro pre
  induction pre with
  | nil => rintro rest l _ ⟨i, hi, _⟩; exact absurd hi (List.not_mem_nil i)
  | cons j pre' ih =>
    rintro rest l hgood ⟨i, hi, hil⟩
    obtain ⟨l0, hl0, hw0⟩ := hgood j (List.mem_cons_self j pre')
    rw [List.cons_append, fan_loop_cons_pos g m j (pre' ++ rest) l0 hl0 hw0]
    rcases List.mem_cons.mp hi with rfl | hi'
    · have hll : l0 = l := Option.some.inj (hl0.symm.trans hil)
      subst hll
      exact List.mem_cons_self _ _
    · exact List.mem_cons_of_mem _
        (ih rest l (fun k hk => hgood k (List.mem_cons_of_mem j hk)) ⟨i, hi', hil⟩)

theorem match_level_impl_lb : ∀ (cv : Bool) (mn : LogLevel),
    (if cv then (0 : Int) else -2) ≤ level_int (match_level_impl cv (Level.fromLog mn)) := by
  decide

theorem match_level_impl_ub : ∀ (cv : Bool) (ll : LogLevel),
    level_int (match_level_impl cv (Level.fromLog ll)) ≤ 2 := by
  decide

theorem created_min : ∀ (cv : Bool) (mn : LogLevel),
    created_files cv (match_level_impl cv (Level.fromLog mn)) = true := by
  decide

theorem rank_writer_of_bounds (cv : Bool) (i : Int)
    (h1 : (if cv then (0 : Int) else -2) ≤ i) (h2 : i ≤ 2) :
    ∃ l, level_of_int i = some l ∧ created_files cv l = true := by
  cases cv with
  | false =>
    simp only [Bool.false_eq_true, if_false] at h1
    have hb : i = -2 ∨ i = -1 ∨ i = 0 ∨ i = 1 ∨ i = 2 := by omega
    rcases hb with rfl | rfl | rfl | rfl | rfl
    · exact ⟨Level.Trace, by decide, by decide⟩
    · exact ⟨Level.Debug, by decide, by decide⟩
    · exact ⟨Level.Info, by decide, by decide⟩
    · exact ⟨Level.Warn, by decide, by decide⟩
    · exact ⟨Level.Error, by decide, by decide⟩
  | true =>
    simp only [if_true] at h1
    have hb : i = 0 ∨ i = 1 ∨ i = 2 := by omega
    rcases hb with rfl | rfl | rfl
    · exact ⟨Level.Info, by decide, by decide⟩
    · exact ⟨Level.Warn, by decide, by decide⟩
    · exact ⟨Level.Error, by decide, by decide⟩

theorem fan_ranks_writer (cv cd : Bool) (fl : Flags) (fp : Option String) (ll : LogLevel) :
    ∀ i ∈ fan_ranks (mk_logger cv cd fl fp) (Level.fromLog ll),
      ∃ l, level_of_int i = some l ∧ (mk_logger cv cd fl fp).file_writer l = true := by
  intro i hi
  rw [fan_ranks, mem_int_range] at hi
  obtain ⟨h1, h2⟩ := hi
  have hlb : (if cv then (0 : Int) else -2) ≤
      (mk_logger cv cd fl fp).level_as_int (Level.fromLog fl.minloglevel) :=
    match_level_impl_lb cv fl.minloglevel
  have hub : (mk_logger cv cd fl fp).level_as_int (Level.fromLog ll) ≤ 2 :=
    match_level_impl_ub cv ll
  obtain ⟨l, hl, hw⟩ := rank_writer_of_bounds cv i (le_trans hlb h1) (le_trans h2 hub)
  exact ⟨l, hl, hw⟩

theorem fan_loop_no_backtrace (g : Glogger) (m : String) (x : Level) :
    ∀ ranks : List Int, FileEvent.backtrace x ∉ (fan_loop g m ranks).1 := by
  intro ranks
  induction ranks with
  | nil => simp [fan_loop]
  | cons i rest ih =>
    cases hlo : level_of_int i with
    | none => simp [fan_loop, hlo]
    | some l =>
      cases hw : g.file_writer l with
      | false => simp [fan_loop, hlo, hw]
      | true =>
        rw [fan_loop_cons_pos g m i rest l hlo hw]
        simp only [List.mem_cons, not_or]
        exact ⟨by simp, ih⟩

theorem mk_logger_flags (cv cd : Bool) (fl : Flags) (fp : Option String) :
    (mk_logger cv cd fl fp).flags = fl := rfl

theorem fan_out_ok (cv cd : Bool) (fl : Flags) (fp : Option String)
    (now : String) (tid : Nat) (line : Nat) (msg fname : String) (ll : LogLevel) :
    (fan_out_writes (mk_logger cv cd fl fp) now tid
      { line := line, msg := msg, file := fname, level := Level.fromLog ll }).2 = true :=
  (fan_loop_complete (mk_logger cv cd fl fp) _ _ (fan_ranks_writer cv cd fl fp ll)).1

theorem write_file_ok (cv cd : Bool) (fl : Flags) (fp : Option String)
    (now : String) (tid : Nat) (line : Nat) (msg fname : String) (ll : LogLevel) :
    ((mk_logger cv cd fl fp).write_file now tid
      { line := line, msg := msg, file := fname, level := Level.fromLog ll }).2 = true := by
  have hok := fan_out_ok cv cd fl fp now tid line msg fname ll
  have hcm : (mk_logger cv cd fl fp).file_writer
      ((mk_logger cv cd fl fp).match_level (Level.fromLog fl.minloglevel)) = true :=
    created_min cv fl.minloglevel
  cases hbt : (mk_logger cv cd fl fp).should_log_backtrace fname line with
  | false => simp [Glogger.write_file, hok, hbt]
  | true => simp [Glogger.write_file, hok, hbt, mk_logger_flags, hcm]

theorem fatal_rank (cv cd : Bool) (fl : Flags) (fp : Option String) :
    (mk_logger cv cd fl fp).level_as_int Level.Fatal = 3 := by
  cases cv <;> rfl

theorem fatal_fan_fails (cv cd : Bool) (fl : Flags) (fp : Option String)
    (now : String) (tid : Nat) (line : Nat) (msg fname : String) :
    (fan_out_writes (mk_logger cv cd fl fp) now tid
      { line := line, msg := msg, file := fname, level := Level.Fatal }).2 = false := by
  apply fan_loop_fails
  refine ⟨3, ?_, ?_⟩
  · show (3 : Int) ∈ fan_ranks (mk_logger cv cd fl fp) Level.Fatal
    rw [fan_ranks, mem_int_range, fatal_rank cv cd fl fp, mk_logger_flags]
    have hub : (mk_logger cv cd fl fp).level_as_int (Level.fromLog fl.minloglevel) ≤ 2 :=
      match_level_impl_ub cv fl.minloglevel
    omega
  · cases cv <;> rfl

theorem fan_set_eq : ∀ (cv : Bool) (mn ll : LogLevel) (l : Level),
    logLevelNum ll ≤ logLevelNum mn →
    ((level_int (match_level_impl cv (Level.fromLog mn)) ≤ level_int l ∧
        level_int l ≤ level_int (match_level_impl cv (Level.fromLog ll)))
      ↔ (created_files cv l = true ∧
          level_int (Level.fromLog mn) ≤ level_int l ∧
          level_int l ≤ level_int (match_level_impl cv (Level.fromLog ll)))) := by
  decide

theorem created_rank_bounds : ∀ (cv : Bool) (mn : LogLevel) (l : Level),
    created_files cv l = true →
    level_int (Level.fromLog mn) ≤ level_int l →
    (level_int (match_level_impl cv (Level.fromLog mn)) ≤ level_int l ∧ level_int l ≤ 2) := by
  decide

/-! ### Claims -/

/-- C1: for every event whose severity passes the minimum-severity filter,
the file fan-out of `write_file` completes without panicking and emits the
formatted line to exactly those files that exist and whose integer rank lies
between the configured minimum severity's rank and the event's collapsed
severity rank, inclusive. -/
theorem C1_cascading_fan_out (cv cd : Bool) (fl : Flags) (fp : Option String)
    (now : String) (tid : Nat) (line : Nat) (msg fname : String) (ll : LogLevel)
    (hpass : (mk_logger cv cd fl fp).enabled ll = true) :
    (fan_out_writes (mk_logger cv cd fl fp) now tid
        { line := line, msg := msg, file := fname, level := Level.fromLog ll }).2 = true ∧
    ∀ l : Level,
      (FileEvent.line l ((mk_logger cv cd fl fp).build_log_message now tid
            { line := line, msg := msg, file := fname, level := Level.fromLog ll })
          ∈ (fan_out_writes (mk_logger cv cd fl fp) now tid
            { line := line, msg := msg, file := fname, level := Level.fromLog ll }).1)
        ↔ ((mk_logger cv cd fl fp).file_writer l = true ∧
            level_int (Level.fromLog fl.minloglevel) ≤ level_int l ∧
            level_int l ≤ (mk_logger cv cd fl fp).level_as_int (Level.fromLog ll)) := by
  have hnum : logLevelNum ll ≤ logLevelNum fl.minloglevel := of_decide_eq_true hpass
  obtain ⟨hok, hmem⟩ := fan_loop_complete (mk_logger cv cd fl fp)
    ((mk_logger cv cd fl fp).build_log_message now tid
      { line := line, msg := msg, file := fname, level := Level.fromLog ll })
    (fan_ranks (mk_logger cv cd fl fp) (Level.fromLog ll))
    (fan_ranks_writer cv cd fl fp ll)
  refine ⟨hok, fun l => ?_⟩
  have h2 := hmem l
  constructor
  · intro hin
    obtain ⟨i, hi, hil⟩ := h2.mp hin
    rw [fan_ranks, mem_int_range, mk_logger_flags] at hi
    obtain rfl := level_of_int_inj i l hil
    exact (fan_set_eq cv fl.minloglevel ll l hnum).mp hi
  · intro hrhs
    have hbounds := (fan_set_eq cv fl.minloglevel ll l hnum).mpr hrhs
    refine h2.mpr ⟨level_int l, ?_, level_of_int_level_int l⟩
    rw [fan_ranks, mem_int_range, mk_logger_flags]
    exact hbounds

/-- C1 witness: minimum severity `Warn`, event at `Error`, extended levels
off: the `Warn` file receives the line, the `Info` file does not. -/
theorem C1_cascading_fan_out_witness :
    ((fan_out_writes (mk_logger true true flags_warn none) "0401 12:00:00.000000" 7
        { line := 5, msg := "m", file := "a.rs", level := Level.fromLog LogLevel.Error }).2 = true ∧
      (FileEvent.line Level.Warn ((mk_logger true true flags_warn none).build_log_message
            "0401 12:00:00.000000" 7
            { line := 5, msg := "m", file := "a.rs", level := Level.fromLog LogLevel.Error })
          ∈ (fan_out_writes (mk_logger true true flags_warn none) "0401 12:00:00.000000" 7
            { line := 5, msg := "m", file := "a.rs", level := Level.fromLog LogLevel.Error }).1
        ↔ ((mk_logger true true flags_warn none).file_writer Level.Warn = true ∧
            level_int (Level.fromLog flags_warn.minloglevel) ≤ level_int Level.Warn ∧
            level_int Level.Warn ≤
              (mk_logger true true flags_warn none).level_as_int (Level.fromLog LogLevel.Error)))) :=
  ⟨(C1_cascading_fan_out true true flags_warn none "0401 12:00:00.000000" 7 5 "m" "a.rs"
      LogLevel.Error (by decide)).1,
    (C1_cascading_fan_out true true flags_warn none "0401 12:00:00.000000" 7 5 "m" "a.rs"
      LogLevel.Error (by decide)).2 Level.Warn⟩

/-- C10: for an event at a `log`-crate severity (at most `Error`) with the
file map produced at initialization, every handle lookup of `write_file`
(fan-out loop and backtrace append) succeeds — `write_file` completes with no
panic, and the backtrace-append target file always exists — while a
`Fatal`-severity event reaches rank 3, for which no file was created, so its
fan-out loop panics. -/
theorem C10_handle_lookups_safe (cv cd : Bool) (fl : Flags) (fp : Option String)
    (now : String) (tid : Nat) (line : Nat) (msg fname : String) (ll : LogLevel)
    (_hpass : (mk_logger cv cd fl fp).enabled ll = true) :
    ((mk_logger cv cd fl fp).write_file now tid
        { line := line, msg := msg, file := fname, level := Level.fromLog ll }).2 = true ∧
    (mk_logger cv cd fl fp).file_writer
        ((mk_logger cv cd fl fp).match_level (Level.fromLog fl.minloglevel)) = true ∧
    (fan_out_writes (mk_logger cv cd fl fp) now tid
        { line := line, msg := msg, file := fname, level := Level.Fatal }).2 = false :=
  ⟨write_file_ok cv cd fl fp now tid line msg fname ll,
    created_min cv fl.minloglevel,
    fatal_fan_fails cv cd fl fp now tid line msg fname⟩

/-- C3: a `Fatal`-severity event always terminates the calling thread's
normal control flow, and every write of the destination fan-out — the stderr
line when stderr output is enabled, and the line in every existing file whose
rank lies in the cascading range up to `Fatal`'s rank when file output is
enabled — appears in the trace of completed writes, which precedes the
termination. -/
theorem C3_fatal_recorded_then_terminated (cv cd : Bool) (fl : Flags) (fp : Option String)
    (now : String) (tid : Nat) (line : Nat) (msg fname : String) :
    (fatal_call (mk_logger cv cd fl fp) now tid fname line msg).2 = Outcome.terminated ∧
    ((fl.logtostderr || fl.alsologtostderr) = true →
      Step.stderrLine ((mk_logger cv cd fl fp).build_log_message now tid
          { line := line, msg := msg, file := fname, level := Level.Fatal })
        ∈ (fatal_call (mk_logger cv cd fl fp) now tid fname line msg).1) ∧
    (fl.logtostderr = false →
      ∀ l : Level, (mk_logger cv cd fl fp).file_writer l = true →
        level_int (Level.fromLog fl.minloglevel) ≤ level_int l →
        level_int l ≤ level_int Level.Fatal →
        Step.file (FileEvent.line l ((mk_logger cv cd fl fp).build_log_message now tid
            { line := line, msg := msg, file := fname, level := Level.Fatal }))
          ∈ (fatal_call (mk_logger cv cd fl fp) now tid fname line msg).1) := by
  refine ⟨rfl, ?_, ?_⟩
  · intro h
    cases hl : fl.logtostderr with
    | true => simp [fatal_call, log_internal, mk_logger_flags, h, hl, write_stderr]
    | false =>
      rw [hl] at h
      simp only [Bool.false_or] at h
      simp [fatal_call, log_internal, mk_logger_flags, h, hl, write_stderr]
  · intro hl l hw h1 h2
    have hsnoc : fan_ranks (mk_logger cv cd fl fp) Level.Fatal =
        int_range ((mk_logger cv cd fl fp).level_as_int (Level.fromLog fl.minloglevel)) 2
          ++ [3] := by
      rw [fan_ranks, mk_logger_flags, fatal_rank]
      have hub : (mk_logger cv cd fl fp).level_as_int (Level.fromLog fl.minloglevel) ≤ 2 :=
        match_level_impl_ub cv fl.minloglevel
      have hs := int_range_snoc ((mk_logger cv cd fl fp).level_as_int
        (Level.fromLog fl.minloglevel)) 2 (by omega)
      norm_num at hs
      exact hs
    have hmem : FileEvent.line l ((mk_logger cv cd fl fp).build_log_message now tid
          { line := line, msg := msg, file := fname, level := Level.Fatal })
        ∈ (fan_out_writes (mk_logger cv cd fl fp) now tid
          { line := line, msg := msg, file := fname, level := Level.Fatal }).1 := by
      show FileEvent.line l _ ∈ (fan_loop (mk_logger cv cd fl fp) _
        (fan_ranks (mk_logger cv cd fl fp) Level.Fatal)).1
      rw [hsnoc]
      apply fan_loop_mem_append
      · intro j hj
        rw [mem_int_range] at hj
        exact rank_writer_of_bounds cv j
          (le_trans (match_level_impl_lb cv fl.minloglevel) hj.1) hj.2
      · obtain ⟨hs, h22⟩ := created_rank_bounds cv fl.minloglevel l hw h1
        exact ⟨level_int l, (mem_int_range _ _ _).mpr ⟨hs, h22⟩, level_of_int_level_int l⟩
    have hfail := fatal_fan_fails cv cd fl fp now tid line msg fname
    have hwf : ((mk_logger cv cd fl fp).write_file now tid
        { line := line, msg := msg, file := fname, level := Level.Fatal }).1 =
        (fan_out_writes (mk_logger cv cd fl fp) now tid
          { line := line, msg := msg, file := fname, level := Level.Fatal }).1 := by
      simp [Glogger.write_file, hfail]
    show Step.file _ ∈ (log_internal (mk_logger cv cd fl fp) now tid
      { line := line, msg := msg, file := fname, level := Level.Fatal }).1
    simp only [log_internal, mk_logger_flags, hl, if_false, Bool.false_eq_true]
    exact List.mem_append.mpr (Or.inr (List.mem_map.mpr ⟨_, hwf ▸ hmem, rfl⟩))

/-- C3 witness: minimum `Warn`, file output plus `alsologtostderr`: the
stderr line and the `Warn` file line are both in the trace and the call
terminates. -/
theorem C3_fatal_recorded_then_terminated_witness :
    ((fatal_call (mk_logger true true flags_also none) "0401 12:00:00.000000" 7
        "a.rs" 5 "m").2 = Outcome.terminated ∧
      Step.stderrLine ((mk_logger true true flags_also none).build_log_message
          "0401 12:00:00.000000" 7
          { line := 5, msg := "m", file := "a.rs", level := Level.Fatal })
        ∈ (fatal_call (mk_logger true true flags_also none) "0401 12:00:00.000000" 7
          "a.rs" 5 "m").1 ∧
      Step.file (FileEvent.line Level.Warn
          ((mk_logger true true flags_also none).build_log_message "0401 12:00:00.000000" 7
            { line := 5, msg := "m", file := "a.rs", level := Level.Fatal }))
        ∈ (fatal_call (mk_logger true true flags_also none) "0401 12:00:00.000000" 7
          "a.rs" 5 "m").1) :=
  ⟨(C3_fatal_recorded_then_terminated true true flags_also none "0401 12:00:00.000000" 7 5
      "m" "a.rs").1,
    (C3_fatal_recorded_then_terminated true true flags_also none "0401 12:00:00.000000" 7 5
      "m" "a.rs").2.1 (by decide),
    (C3_fatal_recorded_then_terminated true true flags_also none "0401 12:00:00.000000" 7 5
      "m" "a.rs").2.2 (by decide) Level.Warn (by decide) (by decide) (by decide)⟩

theorem no_file_step_in_stderr (g : Glogger) (now : String) (tid : Nat) (r : Record)
    (e : FileEvent) : Step.file e ∉ write_stderr g now tid r := by
  cases hc : g.should_log_backtrace r.file r.line <;> simp [write_stderr, hc]

theorem created_files_iff : ∀ (cv : Bool) (l : Level),
    created_files cv l = true ↔
      (l = Level.Info ∨ l = Level.Warn ∨ l = Level.Error ∨
        (cv = false ∧ (l = Level.Trace ∨ l = Level.Debug))) := by
  decide

theorem created_fatal : ∀ cv : Bool, created_files cv Level.Fatal = false := by
  decide

/-- C6 (amended): the backtrace-trigger check only runs for events that pass
the minimum-severity filter — an event below the configured minimum is
dropped with no writes at all, trace included — while among events that pass
the filter the check is independent of severity: with file output enabled,
the backtrace lands in the minimum-severity file exactly when the event's
`file:line` matches the trigger. -/
theorem C6_backtrace_gated_by_filter (cv cd : Bool) (fl : Flags) (fp : Option String)
    (now : String) (tid : Nat) (line : Nat) (msg fname : String) (ll : LogLevel) :
    ((mk_logger cv cd fl fp).enabled ll = false →
      log_call (mk_logger cv cd fl fp) now tid ll fname line msg = ([], Outcome.normal)) ∧
    ((mk_logger cv cd fl fp).enabled ll = true → fl.logtostderr = false →
      (Step.file (FileEvent.backtrace
            ((mk_logger cv cd fl fp).match_level (Level.fromLog fl.minloglevel)))
          ∈ (log_call (mk_logger cv cd fl fp) now tid ll fname line msg).1
        ↔ (mk_logger cv cd fl fp).should_log_backtrace fname line = true)) := by
  constructor
  · intro h
    simp [log_call, h]
  · intro he hl
    have hok := fan_out_ok cv cd fl fp now tid line msg fname ll
    have hcm : (mk_logger cv cd fl fp).file_writer
        ((mk_logger cv cd fl fp).match_level (Level.fromLog fl.minloglevel)) = true :=
      created_min cv fl.minloglevel
    have hlc : (log_call (mk_logger cv cd fl fp) now tid ll fname line msg).1 =
        ((if fl.logtostderr || fl.alsologtostderr then
            write_stderr (mk_logger cv cd fl fp) now tid
              { line := line, msg := msg, file := fname, level := Level.fromLog ll }
          else []) ++
          ((mk_logger cv cd fl fp).write_file now tid
            { line := line, msg := msg, file := fname, level := Level.fromLog ll }).1.map
            Step.file) := by
      simp [log_call, he, log_internal, mk_logger_flags, hl]
    cases hbt : (mk_logger cv cd fl fp).should_log_backtrace fname line with
    | true =>
      simp only [hbt, iff_true]
      have hwf : ((mk_logger cv cd fl fp).write_file now tid
          { line := line, msg := msg, file := fname, level := Level.fromLog ll }).1 =
          (fan_out_writes (mk_logger cv cd fl fp) now tid
            { line := line, msg := msg, file := fname, level := Level.fromLog ll }).1 ++
          [FileEvent.backtrace ((mk_logger cv cd fl fp).match_level
            (Level.fromLog fl.minloglevel))] := by
        simp [Glogger.write_file, hok, hbt, hcm, mk_logger_flags]
      rw [hlc, hwf]
      simp
    | false =>
      have hwf : ((mk_logger cv cd fl fp).write_file now tid
          { line := line, msg := msg, file := fname, level := Level.fromLog ll }).1 =
          (fan_out_writes (mk_logger cv cd fl fp) now tid
            { line := line, msg := msg, file := fname, level := Level.fromLog ll }).1 := by
        simp [Glogger.write_file, hok, hbt, mk_logger_flags]
      refine iff_of_false ?_ (by simp [hbt])
      intro hmem
      rw [hlc, hwf] at hmem
      rcases List.mem_append.mp hmem with hs | hmap
      · cases hc : fl.logtostderr || fl.alsologtostderr with
        | false => rw [hc] at hs; simp at hs
        | true =>
          rw [hc] at hs
          simp only [if_true] at hs
          exact no_file_step_in_stderr _ _ _ _ _ hs
      · obtain ⟨e, he', heq⟩ := List.mem_map.mp hmap
        injection heq with h'
        subst h'
        exact fan_loop_no_backtrace (mk_logger cv cd fl fp) _ _
          (fan_ranks (mk_logger cv cd fl fp) (Level.fromLog ll)) he'

/-- C6 counterexample: with minimum severity `Info` and the trigger set to
`foo.rs:42`, a `Debug` event at exactly `foo.rs:42` matches the trigger, yet
the call performs no write at all (no backtrace is appended), because the
severity filter returns first — contradicting the claim that the check runs
regardless of the minimum-severity filter. -/
theorem C6_backtrace_gated_counterexample :
    (mk_logger true true flags_trigger none).should_log_backtrace "foo.rs" 42 = true ∧
    log_call (mk_logger true true flags_trigger none) "0401 12:00:00.000000" 7 LogLevel.Debug
      "foo.rs" 42 "m" = ([], Outcome.normal) := by
  exact ⟨by decide, rfl⟩

/-- C6 witness: a below-minimum event is dropped entirely; an enabled event
at the trigger location gets the backtrace appended. -/
theorem C6_backtrace_gated_witness :
    (log_call (mk_logger true true flags_trigger none) "0401 12:00:00.000000" 7 LogLevel.Debug
        "foo.rs" 42 "m" = ([], Outcome.normal)) ∧
    (Step.file (FileEvent.backtrace ((mk_logger true true flags_trigger none).match_level
          (Level.fromLog flags_trigger.minloglevel)))
        ∈ (log_call (mk_logger true true flags_trigger none) "0401 12:00:00.000000" 7
          LogLevel.Info "foo.rs" 42 "m").1
      ↔ (mk_logger true true flags_trigger none).should_log_backtrace "foo.rs" 42 = true) :=
  ⟨(C6_backtrace_gated_by_filter true true flags_trigger none "0401 12:00:00.000000" 7 42
      "m" "foo.rs" LogLevel.Debug).1 (by decide),
    (C6_backtrace_gated_by_filter true true flags_trigger none "0401 12:00:00.000000" 7 42
      "m" "foo.rs" LogLevel.Info).2 (by decide) rfl⟩

/-- C7: the backtrace-capture predicate returns true iff a trigger is
configured and the string `file:line` equals it exactly — plain string
equality, no globbing — so `foo.ext:43` or `bar.ext:42` never trigger a
trigger configured as `foo.ext:42`. -/
theorem C7_trigger_exact :
    (∀ (g : Glogger) (file_name : String) (line : Nat),
      g.should_log_backtrace file_name line = true ↔
        ∃ t, g.flags.log_backtrace_at = some t ∧ file_name ++ ":" ++ toString line = t) ∧
    (mk_logger true true flags_trigger_ext none).should_log_backtrace "foo.ext" 42 = true ∧
    (mk_logger true true flags_trigger_ext none).should_log_backtrace "foo.ext" 43 = false ∧
    (mk_logger true true flags_trigger_ext none).should_log_backtrace "bar.ext" 42 = false := by
  refine ⟨?_, by decide, by decide, by decide⟩
  intro g file_name line
  cases hcfg : g.flags.log_backtrace_at with
  | none => simp [Glogger.should_log_backtrace, hcfg]
  | some t => simp [Glogger.should_log_backtrace, hcfg]

/-- C8: the effective-level function returns `Info` exactly when the level is
`Debug` or `Trace` and collapsing is on, and the identity otherwise; the
rendered single-character abbreviation of a message is the first letter of
the effective level's name, so collapsed `Trace`/`Debug` events render with
`Info`'s abbreviation `I`. -/
theorem C8_effective_level_and_abbrev (cv cd : Bool) (fl : Flags) (fp : Option String)
    (now : String) (tid : Nat) (r : Record) :
    ((mk_logger cv cd fl fp).match_level r.level =
      (if (r.level = Level.Debug ∨ r.level = Level.Trace) ∧ cv = true then Level.Info
        else r.level)) ∧
    ((mk_logger cv cd fl fp).build_log_message now tid r =
      ((mk_logger cv cd fl fp).match_level r.level).head_str ++ now ++ " " ++
        pad5 (toString tid) ++ " " ++ r.file ++ ":" ++ toString r.line ++ "] " ++ r.msg) ∧
    ((mk_logger true cd fl fp).match_level Level.Trace).head_str = "I" ∧
    ((mk_logger true cd fl fp).match_level Level.Debug).head_str = "I" ∧
    Level.Info.head_str = "I" := by
  obtain ⟨ln, m0, f0, lv⟩ := r
  refine ⟨?_, rfl, rfl, rfl, rfl⟩
  cases lv <;> cases cv <;> rfl

/-- C2 (amended): initialization with file output enabled creates exactly one
log file for each of `Info`, `Warn`, `Error` — plus `Trace` and `Debug` when
extended levels are enabled — regardless of the configured minimum severity,
and never a `Fatal` file. -/
theorem C2_files_created_at_init (env : Env) (g : Glogger) :
    (∀ l : Level, ((Glogger.create_log_files env g).1.file_writer l = true ↔
      (l = Level.Info ∨ l = Level.Warn ∨ l = Level.Error ∨
        (g.compatible_verbosity = false ∧ (l = Level.Trace ∨ l = Level.Debug))))) ∧
    (Glogger.create_log_files env g).1.file_writer Level.Fatal = false ∧
    (Glogger.create_log_files env g).2 =
      (create_level_list g.compatible_verbosity).map
        (fun l => log_file_path env g.flags.log_dir l) := by
  refine ⟨fun l => ?_, ?_, rfl⟩
  · exact created_files_iff g.compatible_verbosity l
  · exact created_fatal g.compatible_verbosity

/-- C2 counterexample: initializing with minimum severity `Warn` and file
output requested nevertheless creates an `Info` file (a severity strictly
below the minimum) and no `Fatal` file — contradicting "exactly one log file
for every severity from the configured minimum up to Fatal". -/
theorem C2_files_created_counterexample :
    logger_has_file (init env0 flags_warn { logger := none, registered := false }).1
      Level.Info = true ∧
    logger_has_file (init env0 flags_warn { logger := none, registered := false }).1
      Level.Fatal = false ∧
    level_int Level.Info < level_int (Level.fromLog flags_warn.minloglevel) := by
  exact ⟨rfl, rfl, by decide⟩

/-- C4: evaluation of `init` at a configuration whose `log_dir` is
`/var/log/`.  Because `create_log_files` runs before `l.flags = flags` is
assigned, the files are created under the default temp directory, not under
the supplied destination directory — the claim (and the `log_dir` field's own
documentation) says they must land under the supplied directory. -/
theorem C4_log_dir_ignored :
    (init env0 flags_var_log { logger := none, registered := false }).2.1 =
      ["/tmp/app.host.user.log.INFO.20260101-000000.123",
        "/tmp/app.host.user.log.WARN.20260101-000000.123",
        "/tmp/app.host.user.log.ERROR.20260101-000000.123"] ∧
    ((init env0 flags_var_log { logger := none, registered := false }).2.1.all
      (fun p => !(List.isPrefixOf "/var/log/".data p.data))) = true := by
  exact ⟨by decide, by decide⟩

/-- C5 (amended): once the logger is initialized and registered, any
subsequent initialization call leaves the whole state — configuration, open
log files, registration — unchanged and creates no files, but it returns a
registration error (`SetLoggerError` from `log::set_logger`) rather than
being silently ignored. -/
theorem C5_reinit_state_preserved (env : Env) (fl : Flags) (st : LogState) (g : Glogger)
    (h1 : st.logger = some g) (h2 : st.registered = true) :
    init env fl st = (st, [], Except.error ()) := by
  obtain ⟨lg, reg⟩ := st
  have h1' : lg = some g := h1
  have h2' : reg = true := h2
  subst h1'
  subst h2'
  rfl

/-- C5 witness: a second initialization call on a ready state is a state
no-op that returns the registration error. -/
theorem C5_reinit_state_preserved_witness :
    init env0 flags_var_log
        { logger := some (mk_logger true true flags_warn none), registered := true } =
      ({ logger := some (mk_logger true true flags_warn none), registered := true }, [],
        Except.error ()) :=
  C5_reinit_state_preserved env0 flags_var_log _ (mk_logger true true flags_warn none) rfl rfl

/-- C5 counterexample: running `init` twice from scratch, the second call
returns an error (`log::set_logger` fails) — contradicting the claim that a
subsequent initialization is "silently ignored rather than failing". -/
theorem C5_reinit_counterexample :
    (init env0 flags_var_log
      (init env0 flags_warn { logger := none, registered := false }).1).2.2 =
      Except.error () := rfl

/-- C10 witness at a concrete configuration and event. -/
theorem C10_handle_lookups_safe_witness :
    (((mk_logger true true flags_warn none).write_file "0401 12:00:00.000000" 7
        { line := 5, msg := "m", file := "a.rs", level := Level.fromLog LogLevel.Warn }).2 = true ∧
      (mk_logger true true flags_warn none).file_writer
        ((mk_logger true true flags_warn none).match_level
          (Level.fromLog flags_warn.minloglevel)) = true ∧
      (fan_out_writes (mk_logger true true flags_warn none) "0401 12:00:00.000000" 7
        { line := 5, msg := "m", file := "a.rs", level := Level.Fatal }).2 = false) :=
  C10_handle_lookups_safe true true flags_warn none "0401 12:00:00.000000" 7 5 "m" "a.rs"
    LogLevel.Warn (by decide)

end Glog
